import Mathlib

/-!
Verification development for the search-mode pipeline of the TGBOT repository
(`lib/searchMode.js`).  The JavaScript source is shallowly embedded: pure string
helpers become Lean functions on `String`/`List Char`, and the stateful
`handleSearchMode` orchestrator becomes a total function from an oracle (the
outcomes of all external interactions: chat transport, yt-dlp, HTTP catalogs,
filesystem facts) and an initial state to a final state and outcome.

Modelling conventions, recorded once here:
* JS regex classes `\w` (`[A-Za-z0-9_]`) and `\s` (Unicode whitespace list) are
  embedded literally.  `String.prototype.toLowerCase` (the full, locale-free
  Unicode lowering) is embedded by `jsLowerChar`, which is exact *under the
  subsequent `[^\w\s]` strip*: it maps `A`-`Z` to `a`-`z`, U+212A (KELVIN
  SIGN) to `k` and U+0130 to `i`+U+0307 — the only code points whose Unicode
  lowercase mapping produces a `\w` character — and is the identity elsewhere;
  every other mapping sends non-`\w`/non-`\s` characters to non-`\w`/non-`\s`
  characters (no mapping produces whitespace, a digit or an underscore, and
  `a`-`z`, `0`-`9`, `_` and the `\s` set are lowercase-invariant), so those
  characters are removed by the strip exactly as in JS.
* JS string truthiness (`if (s)`, `s || t`) is `≠ ""`; a possibly-absent string
  is `Option String` with `none` for `null`/`undefined`.
* `String.prototype.length` on cleaned strings (only BMP characters remain
  after cleaning) equals the character count, so `String.length` is exact.
-/

namespace SearchMode

/-- JS `\w` character class: ASCII letters, digits and underscore. -/
def isWordChar (c : Char) : Bool :=
  decide (('a' ≤ c ∧ c ≤ 'z') ∨ ('A' ≤ c ∧ c ≤ 'Z') ∨ ('0' ≤ c ∧ c ≤ '9') ∨ c = '_')

/-- JS `\s` character class (ECMA-262 WhiteSpace ∪ LineTerminator). -/
def isSpaceChar (c : Char) : Bool :=
  decide (c = ' ' ∨ c = '\t' ∨ c = '\n' ∨ c = '\x0b' ∨ c = '\x0c' ∨ c = '\r' ∨
    c = ' ' ∨ c = ' ' ∨ (' ' ≤ c ∧ c ≤ ' ') ∨
    c = ' ' ∨ c = ' ' ∨ c = ' ' ∨ c = ' ' ∨ c = '　' ∨ c = '﻿')

/-- ASCII-only case lowering.  This is the canonicalization relevant to the
case-insensitive regex matching below (`/feat…/gi`, `/ft…/gi`, the cover
split's `by`): for a regex without the `u` flag, ECMA-262 Canonicalize never
lets a non-ASCII input character match an ASCII pattern character, so ASCII
lowering is exact when matching the ASCII literals of those patterns. -/
def jsToLower (c : Char) : Char :=
  if 'A' ≤ c ∧ c ≤ 'Z' then Char.ofNat (c.toNat + 32) else c

/-- `String.prototype.toLowerCase` on one character, as observed through the
`[^\w\s]` strip that always follows it in `isStrictMatch` (see the header
note): `A`-`Z` lower to `a`-`z`; U+212A (KELVIN SIGN) lowers to `k`; U+0130
(LATIN CAPITAL LETTER I WITH DOT ABOVE) has the sole multi-character lowercase
mapping `i`+U+0307; no other code point's lowercase mapping meets `\w` or
`\s`, so identity is exact for them under the strip. -/
def jsLowerChar (c : Char) : List Char :=
  if 'A' ≤ c ∧ c ≤ 'Z' then [Char.ofNat (c.toNat + 32)]
  else if c = '\u212A' then ['k']
  else if c = '\u0130' then ['i', '\u0307']
  else [c]

/-- Characters kept by `replace(/[^\w\s]/g, '')`. -/
def keepChar (c : Char) : Bool :=
  isWordChar c || isSpaceChar c

/-- `x.toLowerCase().replace(/[^\w\s]/g, '')` from `isStrictMatch`
(`searchMode.js:322-323`). -/
def cleanForMatch (s : String) : String :=
  String.mk ((s.data.flatMap jsLowerChar).filter keepChar)

/-- Boolean list-prefix test (helper for the substring test). -/
def listPrefixB : List Char → List Char → Bool
  | [], _ => true
  | _ :: _, [] => false
  | a :: as, b :: bs => a = b && listPrefixB as bs

/-- Boolean contiguous-sublist test (helper for the substring test). -/
def listInfixB : List Char → List Char → Bool
  | sub, [] => listPrefixB sub []
  | sub, b :: bs => listPrefixB sub (b :: bs) || listInfixB sub bs

/-- JS `s.includes(sub)`. -/
def jsIncludes (s sub : String) : Bool :=
  listInfixB sub.data s.data

/-- JS truthiness of an optional string (`null`/`undefined`/`""` are falsy). -/
def optTruthy : Option String → Bool
  | none => false
  | some a => a ≠ ""

/-- `isStrictMatch` (`searchMode.js:319-345`), embedded branch for branch.
The intermediate `cleanResult`/`cleanTarget`/`trackMatches`/`artistMatches`
let-bindings of the source are inlined. -/
def isStrictMatch (resultTitle targetTrackName : String)
    (targetArtist : Option String := none) : Bool :=
  if resultTitle = "" ∨ targetTrackName = "" then false
  else if optTruthy targetArtist && decide ((cleanForMatch targetTrackName).length ≤ 3) then
    jsIncludes (cleanForMatch resultTitle) (cleanForMatch targetTrackName) &&
      jsIncludes (cleanForMatch resultTitle) (cleanForMatch (targetArtist.getD ""))
  else if optTruthy targetArtist &&
      jsIncludes (cleanForMatch resultTitle) (cleanForMatch targetTrackName) then
    jsIncludes (cleanForMatch resultTitle) (cleanForMatch (targetArtist.getD "")) ||
      decide (3 < (cleanForMatch targetTrackName).length)
  else
    jsIncludes (cleanForMatch resultTitle) (cleanForMatch targetTrackName)

/-- The matching rules exactly as claim C2 words them (no guard on the raw
arguments): clean both strings; with an artist and a cleaned target of length
at most 3 require both substrings; with an artist and a track hit accept on an
artist hit or a cleaned target longer than 3; otherwise accept on a track hit.
This is the claim's description, to be compared with `isStrictMatch`. -/
def claimedStrictMatch (resultTitle targetTrackName : String)
    (targetArtist : Option String) : Bool :=
  match targetArtist with
  | some artist =>
    if (cleanForMatch targetTrackName).length ≤ 3 then
      jsIncludes (cleanForMatch resultTitle) (cleanForMatch targetTrackName) &&
        jsIncludes (cleanForMatch resultTitle) (cleanForMatch artist)
    else if jsIncludes (cleanForMatch resultTitle) (cleanForMatch targetTrackName) then
      jsIncludes (cleanForMatch resultTitle) (cleanForMatch artist) ||
        decide (3 < (cleanForMatch targetTrackName).length)
    else
      jsIncludes (cleanForMatch resultTitle) (cleanForMatch targetTrackName)
  | none => jsIncludes (cleanForMatch resultTitle) (cleanForMatch targetTrackName)

/-! ## Input classification (`searchMode.js:374-387`, regexes at 375-376) -/

/-- Strip a literal character prefix, returning the remainder on success. -/
def stripPrefixChars : List Char → List Char → Option (List Char)
  | [], l => some l
  | _ :: _, [] => none
  | p :: ps, c :: cs => if c = p then stripPrefixChars ps cs else none

/-- A character admitted by the `[^ "]+` tail of the bare-URL regex. -/
def urlOkChar (c : Char) : Bool :=
  decide (c ≠ ' ' ∧ c ≠ '"')

/-- `text.match(/^(http|https):\/\/[^ "]+$/)` as a Boolean test. -/
def urlMatch (text : String) : Bool :=
  (match stripPrefixChars "http://".data text.data with
   | some rest => !rest.isEmpty && rest.all urlOkChar
   | none => false) ||
  (match stripPrefixChars "https://".data text.data with
   | some rest => !rest.isEmpty && rest.all urlOkChar
   | none => false)

/-- Domain alternatives of the DSP regex (`searchMode.js:375`); the `.*` tails
of the `www.deezer.`, `link.deezer.` and `music.amazon.` alternatives admit
anything, so they impose no constraint in an unanchored match. -/
def dspDomains : List String :=
  ["open.spotify.com", "www.deezer.", "link.deezer.", "music.apple.com",
   "tidal.com", "music.youtube.com", "music.amazon."]

/-- `text.match(dspRegex)`: the regex is unanchored, so it holds iff the text
contains `http://` or `https://` immediately followed by a listed domain. -/
def dspMatch (text : String) : Bool :=
  dspDomains.any fun d =>
    jsIncludes text ("http://" ++ d) || jsIncludes text ("https://" ++ d)

/-- `text.match(/youtube\.com|youtu\.be/)` as a Boolean test. -/
def ytMatch (text : String) : Bool :=
  jsIncludes text "youtube.com" || jsIncludes text "youtu.be"

/-! ## `cleanQuery` (`searchMode.js:310-317`) -/

/-- JS `.` (no `/s` flag): anything except a line terminator. -/
def dotAny (c : Char) : Bool :=
  decide (c ≠ '\n' ∧ c ≠ '\r' ∧ c ≠ ' ' ∧ c ≠ ' ')

/-- Case-insensitive match of an (ASCII lowercase) word at the head of `l`. -/
def matchCI : List Char → List Char → Option (List Char)
  | [], l => some l
  | _ :: _, [] => none
  | w :: ws, c :: cs => if jsToLower c = w then matchCI ws cs else none

/-- The lazy `.*?[\)\]]` suffix: consume the minimal run of `.`-matchable
characters up to the first `)` or `]`. -/
def lazyToClose : List Char → Option (List Char)
  | [] => none
  | c :: cs =>
    if c = ')' ∨ c = ']' then some cs
    else if dotAny c then lazyToClose cs
    else none

/-- Match `[\(\[]?WORD\.?.*?[\)\]]` at the head of `l` (the `feat`/`ft`
annotation pattern).  When the head is an opening bracket the no-bracket
alternative of `[\(\[]?` cannot match (the word starts with a letter), and
backtracking over the optional `\.?` cannot change the result, so the greedy
deterministic reading below is exact. -/
def matchFeatAt (w : List Char) (l : List Char) : Option (List Char) :=
  let afterWord :=
    match l with
    | [] => none
    | c :: cs => if c = '(' ∨ c = '[' then matchCI w cs else matchCI w l
  match afterWord with
  | none => none
  | some r =>
    let r2 := match r with
              | '.' :: rest => rest
              | _ => r
    lazyToClose r2

/-- Global replacement of the annotation pattern by the empty string
(fuel-recursive scan; `fuel = length` always suffices). -/
def removeFeatAux (w : List Char) : Nat → List Char → List Char
  | 0, l => l
  | _ + 1, [] => []
  | fuel + 1, c :: cs =>
    match matchFeatAt w (c :: cs) with
    | some rest => removeFeatAux w fuel rest
    | none => c :: removeFeatAux w fuel cs

/-- `replace(/\s+/g, " ")` (fuel-recursive scan). -/
def collapseSpacesAux : Nat → List Char → List Char
  | 0, l => l
  | _ + 1, [] => []
  | fuel + 1, c :: cs =>
    if isSpaceChar c then ' ' :: collapseSpacesAux fuel (cs.dropWhile isSpaceChar)
    else c :: collapseSpacesAux fuel cs

/-- JS `String.prototype.trim`. -/
def jsTrim (s : String) : String :=
  String.mk (((s.data.dropWhile isSpaceChar).reverse.dropWhile isSpaceChar).reverse)

/-- `cleanQuery` (`searchMode.js:310-317`): hyphens to spaces, drop
`(feat. …)`/`(ft. …)` annotations, collapse whitespace, trim. -/
def cleanQuery (text : String) : String :=
  let s1 := text.data.map fun c => if c = '-' then ' ' else c
  let s2 := removeFeatAux "feat".data s1.length s1
  let s3 := removeFeatAux "ft".data s2.length s2
  let s4 := collapseSpacesAux s3.length s3
  jsTrim (String.mk s4)

/-! ## Resolved metadata and the Archive.org tier (`searchMode.js:129-158`) -/

/-- The metadata record produced by every backend adapter
(`{title, url, duration, extractor}`). -/
structure TrackMeta where
  title : String
  url : String
  duration : Option Nat
  extractor : String
deriving DecidableEq

/-- One document of the Archive.org full-text search response
(`fl[]=identifier&fl[]=title`). -/
structure ArchiveDoc where
  identifier : String
  title : String
deriving DecidableEq

/-- The hit built at `searchMode.js:142-146` from an accepted document. -/
def mkArchiveHit (d : ArchiveDoc) : TrackMeta :=
  { title := d.title
    url := "https://archive.org/details/" ++ d.identifier
    duration := none
    extractor := "archive.org" }

/-- `searchArchiveOrg` (`searchMode.js:129-158`) given the ranked document
list of the search response (a failed request behaves as the empty list: both
return `null`).  The source iterates the documents in order and returns the
first whose title passes `isStrictMatch` against the raw query, else `null`;
the explicit emptiness pre-check of the source is subsumed by `find?` on the
empty list. -/
def searchArchiveOrg (docs : List ArchiveDoc) (query : String) : Option TrackMeta :=
  (docs.find? fun d => isStrictMatch d.title query none).map mkArchiveHit

/-! ## The four-tier resolution pipeline (`searchMode.js:482-545`) -/

/-- `meta.duration && meta.duration < 45` (`searchMode.js:508`): JS numeric
truthiness makes a reported duration of `0` falsy, so it is not treated as a
preview. -/
def isPreviewDuration : Option Nat → Bool
  | none => false
  | some d => decide (d ≠ 0) && decide (d < 45)

/-- The pre-search track/artist context carried into the pipeline
(`query`, `trackNameForCheck`, `artistForCheck`). -/
structure QueryCtx where
  query : String
  trackNameForCheck : String
  artistForCheck : Option String
deriving DecidableEq

/-- The SoundCloud acceptance filter (`searchMode.js:506-524`): clear the
candidate unless it strict-matches the original context and is not a preview. -/
def scFilter (qc : QueryCtx) (m : TrackMeta) : Option TrackMeta :=
  if !isStrictMatch m.title qc.trackNameForCheck qc.artistForCheck
      || isPreviewDuration m.duration then none
  else some m

/-- Outcomes of the external resolver interactions.  `downloadFromDeezer` and
`getMetadata` catch every internal failure and resolve `null`
(`searchMode.js:216-240, 287-305`), so each tier's outcome is an `Option`. -/
structure ResolverOracle where
  /-- `process.env.DEEZER_ARL` (`none` = unset). -/
  deezerArl : Option String
  /-- Outcome of `downloadFromDeezer(query, …)` when attempted. -/
  deezerResult : Option TrackMeta
  /-- Outcome of `getMetadata(query, …, 'soundcloud')`. -/
  scResult : Option TrackMeta
  /-- Outcome of `getMetadata(query, …, 'youtube')`. -/
  ytResult : Option TrackMeta
  /-- Documents of the Archive.org search response (empty = none/failed). -/
  archiveDocs : List ArchiveDoc
  /-- Outcome of the recursive `getMetadata(archiveMeta.url, …)` fetch. -/
  archiveMetaFetch : Option TrackMeta

/-- Which resolvers ran and what the pipeline answered. -/
structure ResolveOut where
  deezerCalled : Bool
  scCalled : Bool
  ytCalled : Bool
  archiveCalled : Bool
  meta : Option TrackMeta
deriving DecidableEq

/-- The Deezer → SoundCloud → YouTube → Archive cascade
(`searchMode.js:482-545`).  Deezer is attempted only under a truthy
`DEEZER_ARL` (the guard at line 487; `downloadFromDeezer` re-checks the same
variable), and its hit is taken verbatim.  Each later tier runs only while
`meta` is still `null`. -/
def resolveAudio (ro : ResolverOracle) (qc : QueryCtx) : ResolveOut :=
  let dzCalled := optTruthy ro.deezerArl
  let m1 : Option TrackMeta := if optTruthy ro.deezerArl then ro.deezerResult else none
  match m1 with
  | some m => ⟨dzCalled, false, false, false, some m⟩
  | none =>
    let m2 : Option TrackMeta :=
      match ro.scResult with
      | some m => scFilter qc m
      | none => none
    match m2 with
    | some m => ⟨dzCalled, true, false, false, some m⟩
    | none =>
      match ro.ytResult with
      | some m => ⟨dzCalled, true, true, false, some m⟩
      | none =>
        let m4 : Option TrackMeta :=
          match searchArchiveOrg ro.archiveDocs qc.query with
          | some _ => ro.archiveMetaFetch
          | none => none
        ⟨dzCalled, true, true, true, m4⟩

/-! ## Cover art resolution (`searchMode.js:46-125, 558-597`) -/

/-- Catalog-side outcomes for the cover resolver.  The Spotify/Deezer search
responses are functions of the logical query text (transport URL-encoding is
identity on the logical content); `none` covers both an error (caught) and an
empty result list. -/
structure CoverOracle where
  /-- `process.env.SPOTIFY_CLIENT_ID`. -/
  spotifyClientId : Option String
  /-- `process.env.SPOTIFY_CLIENT_SECRET`. -/
  spotifyClientSecret : Option String
  /-- `Date.now()` during this run. -/
  now : Int
  /-- Token-endpoint outcome: `(access_token, expires_in seconds)` or failure. -/
  tokenResponse : Option (String × Int)
  /-- Spotify `/v1/search` outcome for a query: a cover URL or nothing. -/
  spotifySearch : String → Option String
  /-- Deezer `/search` outcome for a query: `album.cover_big` or nothing. -/
  deezerSearch : String → Option String

/-- The token-refresh arm of `getSpotifyToken` (`searchMode.js:76-95`): on
success the cache is set to the token with a one-minute-early expiry; on error
the cache is left as it was and `null` is returned. -/
def freshSpotifyToken (co : CoverOracle) (cache : Option (String × Int)) :
    Option String × Option (String × Int) :=
  match co.tokenResponse with
  | some (tok, expiresIn) => (some tok, some (tok, co.now + expiresIn * 1000 - 60000))
  | none => (none, cache)

/-- `getSpotifyToken` (`searchMode.js:63-96`): requires both credentials,
serves a cached unexpired token, otherwise refreshes. -/
def getSpotifyToken (co : CoverOracle) (cache : Option (String × Int)) :
    Option String × Option (String × Int) :=
  if !(optTruthy co.spotifyClientId && optTruthy co.spotifyClientSecret) then (none, cache)
  else
    match cache with
    | some (tok, exp) =>
      if co.now < exp then (some tok, some (tok, exp))
      else freshSpotifyToken co cache
    | none => freshSpotifyToken co cache

/-- `getSpotifyCover` (`searchMode.js:99-125`): no token means no cover;
otherwise search with the artist-qualified query when an artist is truthy. -/
def getSpotifyCover (co : CoverOracle) (cache : Option (String × Int))
    (trackName : String) (artistName : Option String) :
    Option String × Option (String × Int) :=
  match getSpotifyToken co cache with
  | (none, cache') => (none, cache')
  | (some _, cache') =>
    let q := match artistName with
             | some a => if a ≠ "" then "track:" ++ trackName ++ " artist:" ++ a else trackName
             | none => trackName
    (co.spotifySearch q, cache')

/-- `getDeezerCover` (`searchMode.js:46-57`). -/
def getDeezerCover (co : CoverOracle) (query : String) : Option String :=
  co.deezerSearch query

/-- Count of leading JS-whitespace characters. -/
def leadingSpaceCount : List Char → Nat
  | [] => 0
  | c :: cs => if isSpaceChar c then leadingSpaceCount cs + 1 else 0

/-- The separator alternation `(?:by|-|–)` of the cover split regex,
case-insensitive on `by`. -/
def sepTokenRest : List Char → Option (List Char)
  | [] => none
  | c :: cs =>
    if c = '-' ∨ c = '–' then some cs
    else
      match cs with
      | c2 :: cs2 => if (c = 'b' ∨ c = 'B') ∧ (c2 = 'y' ∨ c2 = 'Y') then some cs2 else none
      | [] => none

/-- Match `\s+(?:by|-|–)\s+` at the head of `l`, returning the remainder.  The
separator alternatives never begin with whitespace, so the greedy `\s+` needs
no backtracking. -/
def matchSplitSep (l : List Char) : Option (List Char) :=
  let n := leadingSpaceCount l
  if n = 0 then none
  else
    match sepTokenRest (l.drop n) with
    | none => none
    | some rest =>
      let m := leadingSpaceCount rest
      if m = 0 then none else some (rest.drop m)

/-- `String.prototype.split` on the separator regex (fuel-recursive scan over
leftmost matches). -/
def splitArtistAux : Nat → List Char → List Char → List String
  | 0, l, acc => [String.mk (acc.reverse ++ l)]
  | _ + 1, [], acc => [String.mk acc.reverse]
  | fuel + 1, c :: cs, acc =>
    match matchSplitSep (c :: cs) with
    | some rest => String.mk acc.reverse :: splitArtistAux fuel rest []
    | none => splitArtistAux fuel cs (c :: acc)

/-- `query.split(/\s+(?:by|-|–)\s+/i)` (`searchMode.js:566`). -/
def splitTrackArtist (q : String) : List String :=
  splitArtistAux q.data.length q.data []

/-- The placeholder of the final fallback (`searchMode.js:596`). -/
def placeholderCover : String :=
  "https://placehold.co/600x600/1a1a1a/ffffff?text=No+Cover"

/-- The cover-art block of the orchestrator (`searchMode.js:558-597`): parse
track/artist from the normalized query, try Spotify, fall back to Deezer, fall
back to a placeholder.  Returns the selected URL and the updated process-wide
token cache. -/
def coverResolve (query : String) (co : CoverOracle) (cache : Option (String × Int)) :
    String × Option (String × Int) :=
  let parts := splitTrackArtist query
  let trackName : Option String :=
    if query ≠ "" then
      if 2 ≤ parts.length then some (jsTrim (parts.headD ""))
      else some (jsTrim query)
    else none
  let artistName : Option String :=
    if query ≠ "" then
      if 2 ≤ parts.length then some (jsTrim (String.intercalate " " parts.tail))
      else none
    else none
  let spotify :=
    if optTruthy trackName then
      getSpotifyCover co cache (trackName.getD "") artistName
    else (none, cache)
  let afterDeezer : Option String :=
    match spotify.1 with
    | some c => some c
    | none => getDeezerCover co query
  (match afterDeezer with
   | some c => c
   | none => placeholderCover, spotify.2)

/-! ## The orchestrator `handleSearchMode` (`searchMode.js:348-729`)

The handler is embedded as a total function from an `Oracle` (outcomes of all
external interactions) and a starting `St` to a final `St` and `Outcome`.  The
state records the per-chat lock marker, the transcript of chat sends, the
process-wide Spotify token cache, and a trace of which external stages ran.
Message texts are ASCII tags standing for the emoji-bearing source strings
(their content is immaterial to the claims; their identity and order are
preserved).  `console.*` logging and the `logInfo`/`logWarn`/`logError`
collaborators are outside the model, as are the time-stamped temp media files
(unique per request and removed on the success path, `searchMode.js:602-717`).
-/

/-- The observable per-run state. -/
structure St where
  /-- Presence of `/tmp/lock_search_<chatId>.lock`. -/
  lockPresent : Bool
  /-- Chat messages delivered so far (including the final video send). -/
  sent : List String
  /-- Number of attempted chat sends (successful or thrown). -/
  sendCount : Nat
  /-- The process-wide Spotify token cache (`spotifyTokenCache/Expiry`). -/
  tokenCache : Option (String × Int)
  /-- `ensureYtDlp` was invoked. -/
  ytDlpEnsured : Bool
  deezerCalled : Bool
  scCalled : Bool
  ytCalled : Bool
  archiveCalled : Bool
  /-- The cover URL chosen by the cover-art block, once it has run. -/
  coverSelected : Option String
  /-- The pipeline's resolved-audio answer, once chosen. -/
  audio : Option TrackMeta
deriving DecidableEq

/-- The state of a fresh run: no lock, nothing sent, nothing traced. -/
def initSt (cache : Option (String × Int)) : St :=
  { lockPresent := false, sent := [], sendCount := 0, tokenCache := cache
    ytDlpEnsured := false, deezerCalled := false, scCalled := false
    ytCalled := false, archiveCalled := false, coverSelected := none, audio := none }

/-- `if (fs.existsSync(lockFile)) fs.unlinkSync(lockFile)`. -/
def removeLock (s : St) : St :=
  { s with lockPresent := false }

/-- How the run ends: the handler returned (normally or by an early `return`,
including a completed top-level `catch`), or an exception escaped it (only
possible from the `catch` block's own `sendMessage`, `searchMode.js:726`). -/
inductive Outcome where
  | ok
  | escaped
deriving DecidableEq

/-- One `bot.sendMessage`/`bot.sendVideo` call: the transport oracle `sf` says
whether the `i`-th send of the run throws. -/
def sendMsg (sf : Nat → Bool) (s : St) (m : String) : St × Bool :=
  if sf s.sendCount then
    ({ s with sendCount := s.sendCount + 1 }, false)
  else
    ({ s with sent := s.sent ++ [m], sendCount := s.sendCount + 1 }, true)

/-- Message tags (stand-ins for the user-facing strings of the source). -/
def msgNonMusic : String := "reject: non-music links are not supported"
def msgAlbumPlaylist : String := "reject: album/playlist links are not supported"
def msgReadingLink : String := "reading link metadata"
def msgSongSpotted : String := "song spotted"
def msgAmazonHint : String := "hint: amazon links are tricky, type the track manually"
def msgLinkHint : String := "hint: could not read link metadata, type the track manually"
def msgProcessingLink : String := "processing link"
def msgProcessingYt : String := "processing youtube link"
def msgNoMatch : String := "no match found"
def msgFound : String := "found, downloading: "
def msgMerging : String := "merging"
def msgUploading : String := "uploading"
def msgVideo : String := "video: "
def msgErrorReply : String := "error reply"

/-- The top-level `catch` (`searchMode.js:723-728`): send the error reply, then
remove the lock.  If that send itself throws, the lock survives and the
exception escapes the handler. -/
def catchHandler (sf : Nat → Bool) (s : St) : St × Outcome :=
  let r := sendMsg sf s msgErrorReply
  if r.2 then (removeLock r.1, .ok) else (r.1, .escaped)

/-- The DSP link-title fetch-and-parse outcome (`searchMode.js:407-445`).  The
page fetch is an external HTTP call and the subsequent `<title>` surgery is a
deterministic function of the fetched page, so the pair is modelled as one
oracle outcome: `none` when the fetch threw or no `<title>` parsed (the inner
`catch` runs), `some` with the extracted context otherwise. -/
structure DspParsed where
  trackNameForCheck : String
  artistForCheck : Option String
  query : String
deriving DecidableEq

/-- Result of the input-analysis section (`searchMode.js:374-469`). -/
inductive ClassifyOut where
  | exited
  | threw
  | direct (qc : QueryCtx)
  | search (qc : QueryCtx)
deriving DecidableEq

/-- The inner `catch` of the DSP branch (`searchMode.js:450-458`): send the
platform-aware hint, remove the lock, return. -/
def dspCatch (sf : Nat → Bool) (text : String) (s : St) : St × ClassifyOut :=
  let m := if jsIncludes text "amazon" then msgAmazonHint else msgLinkHint
  let r := sendMsg sf s m
  if r.2 then (removeLock r.1, .exited) else (r.1, .threw)

/-- Input analysis (`searchMode.js:374-469`): reject bare non-DSP URLs, handle
DSP links (album/playlist rejection, title fetch/parse), mark direct URLs, or
fall through to free text (`query = cleanQuery(text)`). -/
def classify (sf : Nat → Bool) (dspParse : Option DspParsed) (text : String)
    (s : St) : St × ClassifyOut :=
  if urlMatch text && !dspMatch text then
    let r := sendMsg sf s msgNonMusic
    if r.2 then (removeLock r.1, .exited) else (r.1, .threw)
  else if dspMatch text then
    if jsIncludes text "/album/" || jsIncludes text "/playlist/" then
      let r := sendMsg sf s msgAlbumPlaylist
      if r.2 then (removeLock r.1, .exited) else (r.1, .threw)
    else
      let r := sendMsg sf s msgReadingLink
      if !r.2 then (r.1, .threw)
      else
        match dspParse with
        | some p =>
          let r2 := sendMsg sf r.1 msgSongSpotted
          if r2.2 then (r2.1, .search ⟨p.query, p.trackNameForCheck, p.artistForCheck⟩)
          else dspCatch sf text r2.1
        | none => dspCatch sf text r.1
  else if urlMatch text && !ytMatch text then
    let r := sendMsg sf s msgProcessingLink
    if r.2 then (r.1, .direct ⟨text, text, none⟩) else (r.1, .threw)
  else if ytMatch text then
    let r := sendMsg sf s msgProcessingYt
    if r.2 then (r.1, .direct ⟨text, text, none⟩) else (r.1, .threw)
  else
    (s, .search ⟨cleanQuery text, text, none⟩)

/-- All external outcomes of one run. -/
structure Oracle where
  /-- Whether the `i`-th chat send throws. -/
  sendFails : Nat → Bool
  /-- DSP title fetch/parse outcome (see `DspParsed`). -/
  dspParse : Option DspParsed
  /-- `ensureYtDlp` succeeds (`false` = the binary download threw). -/
  ensureYtDlpOk : Bool
  resolver : ResolverOracle
  /-- Outcome of `getMetadata(directUrl, …)` on the direct-URL path. -/
  directMeta : Option TrackMeta
  coverOracle : CoverOracle
  /-- The yt-dlp audio extraction succeeds (`false` = it threw). -/
  audioDownloadOk : Bool
  /-- The audio file exists and is non-empty (`searchMode.js:671`). -/
  audioFileOk : Bool
  /-- The cover image file exists and is non-empty (`searchMode.js:672`);
  subsumes the caught cover `downloadFile` failure at lines 609-613. -/
  imageFileOk : Bool
  /-- `mergeAudioImage` succeeds. -/
  mergeOk : Bool
  /-- The merged output exists and is non-empty (`searchMode.js:694`). -/
  mergeOutputOk : Bool

/-- Steps 3-7 of the orchestrator (`searchMode.js:599-721`): announce the hit,
download, validate, merge, upload, clean up, release the lock.  Every thrown
step lands in the top-level `catch`. -/
def finishRun (o : Oracle) (videoTitle : String) (s : St) : St × Outcome :=
  let r1 := sendMsg o.sendFails s (msgFound ++ videoTitle)
  if !r1.2 then catchHandler o.sendFails r1.1
  else if !o.audioDownloadOk then catchHandler o.sendFails r1.1
  else if !o.audioFileOk then catchHandler o.sendFails r1.1
  else if !o.imageFileOk then catchHandler o.sendFails r1.1
  else
    let r2 := sendMsg o.sendFails r1.1 msgMerging
    if !r2.2 then catchHandler o.sendFails r2.1
    else if !o.mergeOk then catchHandler o.sendFails r2.1
    else if !o.mergeOutputOk then catchHandler o.sendFails r2.1
    else
      let r3 := sendMsg o.sendFails r2.1 msgUploading
      if !r3.2 then catchHandler o.sendFails r3.1
      else
        let r4 := sendMsg o.sendFails r3.1 (msgVideo ++ videoTitle)
        if !r4.2 then catchHandler o.sendFails r4.1
        else (removeLock r4.1, .ok)

/-- The cover-art block followed by the delivery steps (`searchMode.js:558-721`);
records the selection and the updated token cache. -/
def coverAndFinish (o : Oracle) (query videoTitle : String) (s : St) : St × Outcome :=
  let cv := coverResolve query o.coverOracle s.tokenCache
  finishRun o videoTitle
    { s with coverSelected := some cv.1, tokenCache := cv.2 }

/-- The direct-URL arm (`searchMode.js:477-480`): fetch metadata for the exact
URL, title defaulting to "Unknown Track", no relevance filtering. -/
def pipelineDirect (o : Oracle) (qc : QueryCtx) (s : St) : St × Outcome :=
  let s := { s with ytDlpEnsured := true }
  if !o.ensureYtDlpOk then catchHandler o.sendFails s
  else
    let s := { s with audio := o.directMeta }
    let videoTitle := match o.directMeta with
                      | some m => m.title
                      | none => "Unknown Track"
    coverAndFinish o qc.query videoTitle s

/-- The search arm (`searchMode.js:481-555`): run the four-tier cascade; on
exhaustion send the no-match reply and release the lock. -/
def pipelineSearch (o : Oracle) (qc : QueryCtx) (s : St) : St × Outcome :=
  let s := { s with ytDlpEnsured := true }
  if !o.ensureYtDlpOk then catchHandler o.sendFails s
  else
    let r := resolveAudio o.resolver qc
    let s := { s with deezerCalled := r.deezerCalled, scCalled := r.scCalled,
                      ytCalled := r.ytCalled, archiveCalled := r.archiveCalled,
                      audio := r.meta }
    match r.meta with
    | none =>
      let r1 := sendMsg o.sendFails s msgNoMatch
      if r1.2 then (removeLock r1.1, .ok) else catchHandler o.sendFails r1.1
    | some m => coverAndFinish o qc.query m.title s

/-- `handleSearchMode` (`searchMode.js:348-729`): missing text returns; a
present lock drops the request silently; otherwise the lock is created and the
classified input is processed under the top-level try/catch. -/
def runHandle (o : Oracle) (text : String) (s0 : St) : St × Outcome :=
  if text = "" then (s0, .ok)
  else if s0.lockPresent then (s0, .ok)
  else
    let s := { s0 with lockPresent := true }
    match classify o.sendFails o.dspParse text s with
    | (s, .exited) => (s, .ok)
    | (s, .threw) => catchHandler o.sendFails s
    | (s, .direct qc) => pipelineDirect o qc s
    | (s, .search qc) => pipelineSearch o qc s

/-! ## Concrete environments used by witnesses and counterexamples -/

/-- A cover-catalog environment with no Spotify credentials and a fixed Deezer
cover hit. -/
def demoCover : CoverOracle :=
  { spotifyClientId := none, spotifyClientSecret := none, now := 0,
    tokenResponse := none, spotifySearch := fun _ => none,
    deezerSearch := fun _ => some "https://cover.example/a.jpg" }

/-- A baseline oracle: transport never throws, no DSP parse, yt-dlp present,
no resolver hits, all delivery steps succeed. -/
def demoOracle : Oracle :=
  { sendFails := fun _ => false, dspParse := none, ensureYtDlpOk := true,
    resolver := { deezerArl := none, deezerResult := none, scResult := none,
                  ytResult := none, archiveDocs := [], archiveMetaFetch := none },
    directMeta := none, coverOracle := demoCover,
    audioDownloadOk := true, audioFileOk := true, imageFileOk := true,
    mergeOk := true, mergeOutputOk := true }

/-- A matching SoundCloud hit whose reported duration is `0` (JS-falsy). -/
def scZeroDurationMeta : TrackMeta :=
  { title := "mysong", url := "https://soundcloud.example/t", duration := some 0,
    extractor := "soundcloud" }

/-- Oracle for the C5 counterexample: only SoundCloud answers, with
`scZeroDurationMeta`. -/
def c5Oracle : Oracle :=
  { demoOracle with resolver :=
      { demoOracle.resolver with scResult := some scZeroDurationMeta } }

/-- A Deezer hit whose title is unrelated to the query (C4 witness). -/
def dzUnrelatedMeta : TrackMeta :=
  { title := "Totally Different", url := "https://www.deezer.com/track/1",
    duration := some 200, extractor := "deezer" }

/-- Oracle for the C4 witness: Deezer configured and answering, the later
tiers also primed with hits that must never be consulted. -/
def c4Oracle : Oracle :=
  { demoOracle with resolver :=
      { deezerArl := some "arl-cookie", deezerResult := some dzUnrelatedMeta,
        scResult := some ⟨"my song", "https://sc.example/t", some 120, "soundcloud"⟩,
        ytResult := some ⟨"my song", "https://youtube.example/t", some 120, "youtube"⟩,
        archiveDocs := [⟨"id0", "my song"⟩], archiveMetaFetch := none } }

/-- Archive.org documents for the C6 witness: the first is irrelevant, the
second and third both match; the second must win. -/
def c6docs : List ArchiveDoc :=
  [⟨"idA", "Unrelated Noise"⟩, ⟨"idB", "My Song (remaster)"⟩, ⟨"idC", "My Song"⟩]

/-- Oracle pair for the C8 witness: same transport/cover environment,
different audio tiers answering. -/
def c8oracle1 : Oracle :=
  { demoOracle with resolver :=
      { demoOracle.resolver with
          scResult := some ⟨"my song", "https://sc.example/t", some 120, "soundcloud"⟩ } }

def c8oracle2 : Oracle :=
  { demoOracle with resolver :=
      { demoOracle.resolver with
          ytResult := some ⟨"my song (official)", "https://yt.example/t", some 121, "youtube"⟩ } }

/-- A state whose chat already holds the lock marker (C9 witness). -/
def lockedDemoSt : St :=
  { initSt none with lockPresent := true }

/-! ## Helper lemmas -/

theorem listInfixB_nil (l : List Char) : listInfixB [] l = true := by
  cases l <;> simp [listInfixB, listPrefixB]

theorem jsLowerChar_eq_self (c : Char) (hw : isWordChar c = false)
    (hk : c ≠ '\u212A') (hi : c ≠ '\u0130') :
    jsLowerChar c = [c] := by
  have h1 : ¬('A' ≤ c ∧ c ≤ 'Z') := by
    intro hc
    unfold isWordChar at hw
    simp only [decide_eq_false_iff_not] at hw
    exact hw (Or.inr (Or.inl hc))
  unfold jsLowerChar
  rw [if_neg h1, if_neg hk, if_neg hi]

theorem cleanForMatch_data_nil (t : String)
    (h : ∀ c ∈ t.data, isWordChar c = false ∧ isSpaceChar c = false ∧
      c ≠ '\u212A' ∧ c ≠ '\u0130') :
    (cleanForMatch t).data = [] := by
  show ((t.data.flatMap jsLowerChar).filter keepChar) = []
  rw [List.filter_eq_nil_iff]
  intro a ha
  rw [List.mem_flatMap] at ha
  rcases ha with ⟨c, hc, hac⟩
  rcases h c hc with ⟨hw, hs, hk, hi⟩
  rw [jsLowerChar_eq_self c hw hk hi, List.mem_singleton] at hac
  subst hac
  simp [keepChar, hw, hs]

theorem jsIncludes_of_data_nil (s sub : String) (h : sub.data = []) :
    jsIncludes s sub = true := by
  unfold jsIncludes
  rw [h]
  exact listInfixB_nil _

theorem isPreviewDuration_iff (d : Option Nat) :
    isPreviewDuration d = true ↔ ∃ n, d = some n ∧ n ≠ 0 ∧ n < 45 := by
  cases d <;> simp [isPreviewDuration]

theorem find?_first_characterization {α : Type} (p : α → Bool) :
    ∀ (l : List α) (a : α), l.find? p = some a →
      ∃ i, ∃ hi : i < l.length, l.get ⟨i, hi⟩ = a ∧ p a = true ∧
        ∀ j, (hj : j < l.length) → j < i → p (l.get ⟨j, hj⟩) = false := by
  intro l
  induction l with
  | nil => intro a h; simp [List.find?] at h
  | cons x xs ih =>
    intro a h
    by_cases hx : p x
    · rw [List.find?_cons_of_pos _ hx, Option.some_inj] at h
      subst h
      exact ⟨0, Nat.succ_pos _, rfl, hx, fun j hj hj0 => absurd hj0 (Nat.not_lt_zero j)⟩
    · rw [List.find?_cons_of_neg _ (by simpa using hx)] at h
      rcases ih a h with ⟨i, hi, hget, hpa, hbefore⟩
      refine ⟨i + 1, Nat.succ_lt_succ hi, hget, hpa, ?_⟩
      intro j hj hji
      cases j with
      | zero => simpa using hx
      | succ j' =>
        exact hbefore j' (Nat.lt_of_succ_lt_succ hj) (Nat.lt_of_succ_lt_succ hji)

/-! ### Stage lemmas for the orchestrator -/

theorem sendMsg_persists (sf : Nat → Bool) (s : St) (m : String) :
    ((sendMsg sf s m).1).lockPresent = s.lockPresent ∧
    ((sendMsg sf s m).1).tokenCache = s.tokenCache ∧
    ((sendMsg sf s m).1).ytDlpEnsured = s.ytDlpEnsured ∧
    ((sendMsg sf s m).1).deezerCalled = s.deezerCalled ∧
    ((sendMsg sf s m).1).scCalled = s.scCalled ∧
    ((sendMsg sf s m).1).ytCalled = s.ytCalled ∧
    ((sendMsg sf s m).1).archiveCalled = s.archiveCalled ∧
    ((sendMsg sf s m).1).coverSelected = s.coverSelected ∧
    ((sendMsg sf s m).1).audio = s.audio := by
  unfold sendMsg
  split <;> exact ⟨rfl, rfl, rfl, rfl, rfl, rfl, rfl, rfl, rfl⟩

theorem removeLock_persists (s : St) :
    (removeLock s).tokenCache = s.tokenCache ∧
    (removeLock s).ytDlpEnsured = s.ytDlpEnsured ∧
    (removeLock s).deezerCalled = s.deezerCalled ∧
    (removeLock s).scCalled = s.scCalled ∧
    (removeLock s).ytCalled = s.ytCalled ∧
    (removeLock s).archiveCalled = s.archiveCalled ∧
    (removeLock s).coverSelected = s.coverSelected ∧
    (removeLock s).audio = s.audio :=
  ⟨rfl, rfl, rfl, rfl, rfl, rfl, rfl, rfl⟩

theorem catchHandler_persists (sf : Nat → Bool) (s : St) :
    ((catchHandler sf s).1).tokenCache = s.tokenCache ∧
    ((catchHandler sf s).1).ytDlpEnsured = s.ytDlpEnsured ∧
    ((catchHandler sf s).1).deezerCalled = s.deezerCalled ∧
    ((catchHandler sf s).1).scCalled = s.scCalled ∧
    ((catchHandler sf s).1).ytCalled = s.ytCalled ∧
    ((catchHandler sf s).1).archiveCalled = s.archiveCalled ∧
    ((catchHandler sf s).1).coverSelected = s.coverSelected ∧
    ((catchHandler sf s).1).audio = s.audio := by
  simp only [catchHandler]
  split_ifs <;> simp [removeLock_persists, sendMsg_persists]

theorem finishRun_persists (o : Oracle) (vt : String) (s : St) :
    ((finishRun o vt s).1).tokenCache = s.tokenCache ∧
    ((finishRun o vt s).1).ytDlpEnsured = s.ytDlpEnsured ∧
    ((finishRun o vt s).1).deezerCalled = s.deezerCalled ∧
    ((finishRun o vt s).1).scCalled = s.scCalled ∧
    ((finishRun o vt s).1).ytCalled = s.ytCalled ∧
    ((finishRun o vt s).1).archiveCalled = s.archiveCalled ∧
    ((finishRun o vt s).1).coverSelected = s.coverSelected ∧
    ((finishRun o vt s).1).audio = s.audio := by
  simp only [finishRun]
  split_ifs <;> simp [catchHandler_persists, sendMsg_persists, removeLock_persists]

theorem dspCatch_persists (sf : Nat → Bool) (text : String) (s : St) :
    ((dspCatch sf text s).1).tokenCache = s.tokenCache ∧
    ((dspCatch sf text s).1).ytDlpEnsured = s.ytDlpEnsured ∧
    ((dspCatch sf text s).1).deezerCalled = s.deezerCalled ∧
    ((dspCatch sf text s).1).scCalled = s.scCalled ∧
    ((dspCatch sf text s).1).ytCalled = s.ytCalled ∧
    ((dspCatch sf text s).1).archiveCalled = s.archiveCalled ∧
    ((dspCatch sf text s).1).coverSelected = s.coverSelected ∧
    ((dspCatch sf text s).1).audio = s.audio := by
  simp only [dspCatch]
  split_ifs <;> simp [sendMsg_persists, removeLock_persists]

theorem classify_persists (sf : Nat → Bool) (dp : Option DspParsed)
    (text : String) (s : St) :
    ((classify sf dp text s).1).tokenCache = s.tokenCache ∧
    ((classify sf dp text s).1).ytDlpEnsured = s.ytDlpEnsured ∧
    ((classify sf dp text s).1).deezerCalled = s.deezerCalled ∧
    ((classify sf dp text s).1).scCalled = s.scCalled ∧
    ((classify sf dp text s).1).ytCalled = s.ytCalled ∧
    ((classify sf dp text s).1).archiveCalled = s.archiveCalled ∧
    ((classify sf dp text s).1).coverSelected = s.coverSelected ∧
    ((classify sf dp text s).1).audio = s.audio := by
  simp only [classify]
  cases dp <;>
    split_ifs <;>
      simp [sendMsg_persists, removeLock_persists, dspCatch_persists]

theorem catchHandler_ok_lock (sf : Nat → Bool) (s : St)
    (h : (catchHandler sf s).2 = Outcome.ok) :
    ((catchHandler sf s).1).lockPresent = false := by
  revert h
  simp only [catchHandler]
  split_ifs
  · intro _; rfl
  · intro h; exact absurd h (by simp)

theorem finishRun_ok_lock (o : Oracle) (vt : String) (s : St)
    (h : (finishRun o vt s).2 = Outcome.ok) :
    ((finishRun o vt s).1).lockPresent = false := by
  revert h
  simp only [finishRun]
  split_ifs <;> first
    | exact catchHandler_ok_lock _ _
    | (intro _; rfl)

theorem coverAndFinish_ok_lock (o : Oracle) (query vt : String) (s : St)
    (h : (coverAndFinish o query vt s).2 = Outcome.ok) :
    ((coverAndFinish o query vt s).1).lockPresent = false := by
  exact finishRun_ok_lock o vt _ h

theorem pipelineDirect_ok_lock (o : Oracle) (qc : QueryCtx) (s : St)
    (h : (pipelineDirect o qc s).2 = Outcome.ok) :
    ((pipelineDirect o qc s).1).lockPresent = false := by
  revert h
  simp only [pipelineDirect]
  split_ifs
  · exact catchHandler_ok_lock _ _
  · exact coverAndFinish_ok_lock _ _ _ _

theorem pipelineSearch_ok_lock (o : Oracle) (qc : QueryCtx) (s : St)
    (h : (pipelineSearch o qc s).2 = Outcome.ok) :
    ((pipelineSearch o qc s).1).lockPresent = false := by
  revert h
  simp only [pipelineSearch]
  cases hm : (resolveAudio o.resolver qc).meta <;>
    split_ifs <;>
      first
        | exact catchHandler_ok_lock _ _
        | exact coverAndFinish_ok_lock _ _ _ _
        | (intro _; rfl)

theorem classify_exited_lock (sf : Nat → Bool) (dp : Option DspParsed)
    (text : String) (s : St)
    (h : (classify sf dp text s).2 = ClassifyOut.exited) :
    ((classify sf dp text s).1).lockPresent = false := by
  revert h
  simp only [classify, dspCatch]
  cases dp <;> split_ifs <;> intro h
  all_goals first
    | rfl
    | exact absurd h (by simp)

/-! ## Claim C2 — the relevance matcher's exact rules -/

/-- Claim C2 (counterexample): the claim's description omits the raw-argument
guard of `searchMode.js:320`.  On the pair of empty strings the described
rules yield `true` (the empty cleaned result contains the empty cleaned
track), while `isStrictMatch` returns `false`. -/
theorem c2_empty_guard_counterexample :
    claimedStrictMatch "" "" none = true ∧ isStrictMatch "" "" none = false := by
  decide

/-- Claim C2 (amended): `isStrictMatch` implements exactly the claimed rules
*guarded* by "return false when either raw argument is empty"
(`searchMode.js:320`); the three concrete evaluations of the claim hold as
stated. -/
theorem c2_strict_match_rules :
    (∀ r t a, isStrictMatch r t a =
      if r = "" ∨ t = "" then false else claimedStrictMatch r t a) ∧
    isStrictMatch "40 - Someone Else" "40" (some "Kijan Boone") = false ∧
    isStrictMatch "40 - Kijan Boone" "40" (some "Kijan Boone") = true ∧
    isStrictMatch "Bohemian Rhapsody (Live)" "Bohemian Rhapsody" (some "Someone Else") = true := by
  refine ⟨?_, by decide, by decide, by decide⟩
  intro r t a
  by_cases hg : r = "" ∨ t = ""
  · unfold isStrictMatch
    rw [if_pos hg, if_pos hg]
  · unfold isStrictMatch
    rw [if_neg hg, if_neg hg]
    cases a with
    | none => simp [claimedStrictMatch, optTruthy]
    | some artist =>
      unfold claimedStrictMatch
      by_cases ha : artist = ""
      · subst ha
        have hinc : jsIncludes (cleanForMatch r) (cleanForMatch "") = true :=
          jsIncludes_of_data_nil _ _ rfl
        have hta : optTruthy (some "") = false := by simp [optTruthy]
        by_cases hlen : (cleanForMatch t).length ≤ 3 <;>
          cases hm : jsIncludes (cleanForMatch r) (cleanForMatch t) <;>
            simp [hta, hlen, hm, hinc]
      · have hta : optTruthy (some artist) = true := by simp [optTruthy, ha]
        by_cases hlen : (cleanForMatch t).length ≤ 3 <;>
          cases hm : jsIncludes (cleanForMatch r) (cleanForMatch t) <;>
            simp [hta, hlen, hm]

/-! ## Claim C10 — targets made only of stripped characters -/

/-- Claim C10 (counterexample): the claim's premise "consisting only of
non-word, non-space characters (so it cleans to the empty string)" fails:
`toLowerCase` runs *before* the `[^\w\s]` strip (`searchMode.js:323`) and
maps U+212A (KELVIN SIGN) — a non-`\w`, non-`\s` character — to the word
character `k`, so the one-character target U+212A cleans to `"k"`, not `""`,
and a title without a `k` does not match: `isStrictMatch` returns `false`
where the claim says `true`. -/
theorem c10_kelvin_counterexample :
    ("xyz" ≠ "" ∧ "\u212A" ≠ "" ∧
      (∀ c ∈ "\u212A".data, isWordChar c = false ∧ isSpaceChar c = false)) ∧
    cleanForMatch "\u212A" = "k" ∧
    isStrictMatch "xyz" "\u212A" none = false := by
  decide

/-- Claim C10 (amended): with a non-empty raw result title and a non-empty
raw target made only of characters outside `\w` and `\s` *other than U+212A
and U+0130* (the only code points whose JS lowercase mapping produces word
characters), the cleaned target is empty, the raw-argument guard — which
tests the raw arguments before cleaning — passes, and every string contains
the empty substring, so `isStrictMatch` (with no artist) returns `true`. -/
theorem c10_unmatchable_target_accepted (r t : String)
    (hr : r ≠ "") (ht : t ≠ "")
    (h : ∀ c ∈ t.data, isWordChar c = false ∧ isSpaceChar c = false ∧
      c ≠ '\u212A' ∧ c ≠ '\u0130') :
    isStrictMatch r t none = true := by
  have hnil : (cleanForMatch t).data = [] := cleanForMatch_data_nil t h
  unfold isStrictMatch
  rw [if_neg (by simp [hr, ht])]
  have hta : optTruthy none = false := rfl
  simp only [hta, Bool.false_and, Bool.false_eq_true, if_false]
  exact jsIncludes_of_data_nil _ _ hnil

/-! ## Claim C6 — Archive.org accepts the first strict match of a short list -/

/-- Claim C6: over any response of at most 5 ranked documents,
`searchArchiveOrg` returns `null` when no title strict-matches the raw query,
and otherwise returns the hit built from the first passing document, every
earlier document failing the check (later documents are never consulted). -/
theorem c6_archive_first_match (docs : List ArchiveDoc) (query : String)
    (_hlen : docs.length ≤ 5) :
    ((∀ d ∈ docs, isStrictMatch d.title query none = false) →
      searchArchiveOrg docs query = none) ∧
    (∀ hit, searchArchiveOrg docs query = some hit →
      ∃ i, ∃ hi : i < docs.length,
        hit = mkArchiveHit (docs.get ⟨i, hi⟩) ∧
        isStrictMatch (docs.get ⟨i, hi⟩).title query none = true ∧
        ∀ j, (hj : j < docs.length) → j < i →
          isStrictMatch (docs.get ⟨j, hj⟩).title query none = false) := by
  constructor
  · intro hall
    unfold searchArchiveOrg
    rw [List.find?_eq_none.mpr (fun d hd => by simp [hall d hd])]
    rfl
  · intro hit hfind
    unfold searchArchiveOrg at hfind
    rcases Option.map_eq_some'.mp hfind with ⟨d, hd, rfl⟩
    rcases find?_first_characterization _ docs d hd with ⟨i, hi, hget, hpd, hbefore⟩
    refine ⟨i, hi, by rw [hget], by rw [hget]; exact hpd, ?_⟩
    intro j hj hji
    exact hbefore j hj hji

/-- Claim C6 (witness): on a concrete 3-document response whose second and
third documents both match, the second is returned and the first is reported
non-matching. -/
theorem c6_witness :
    (c6docs.length ≤ 5 ∧
      searchArchiveOrg c6docs "My Song" = some (mkArchiveHit ⟨"idB", "My Song (remaster)"⟩)) ∧
    (∃ i, ∃ hi : i < c6docs.length,
      mkArchiveHit ⟨"idB", "My Song (remaster)"⟩ = mkArchiveHit (c6docs.get ⟨i, hi⟩) ∧
      isStrictMatch (c6docs.get ⟨i, hi⟩).title "My Song" none = true ∧
      ∀ j, (hj : j < c6docs.length) → j < i →
        isStrictMatch (c6docs.get ⟨j, hj⟩).title "My Song" none = false) :=
  ⟨⟨by decide, by decide⟩,
    (c6_archive_first_match c6docs "My Song" (by decide)).2
      (mkArchiveHit ⟨"idB", "My Song (remaster)"⟩) (by decide)⟩

/-! ## Claim C3 — the lock is released on every completed exit path -/

/-- Claim C3: whenever the lock was absent on entry and the message has text
(so this run created the lock file), and the run ends on one of its own exit
paths (`Outcome.ok`: successful delivery, every early rejection return, and a
completed top-level `catch` after any mid-pipeline throw), the lock file is
absent again.  The only excluded ending is `Outcome.escaped`, where the error
reply inside the `catch` itself threw before the unlink at
`searchMode.js:727`. -/
theorem c3_lock_released (o : Oracle) (text : String) (s0 : St)
    (hlock : s0.lockPresent = false) (htext : text ≠ "")
    (hok : (runHandle o text s0).2 = Outcome.ok) :
    ((runHandle o text s0).1).lockPresent = false := by
  revert hok
  simp only [runHandle]
  rw [if_neg htext, if_neg (by simp [hlock])]
  rcases hc : classify o.sendFails o.dspParse text { s0 with lockPresent := true } with ⟨s', c⟩
  cases c with
  | exited =>
    intro _
    have hl := classify_exited_lock o.sendFails o.dspParse text
      { s0 with lockPresent := true } (by rw [hc])
    rw [hc] at hl
    exact hl
  | threw => exact catchHandler_ok_lock _ _
  | direct qc => exact pipelineDirect_ok_lock _ _ _
  | search qc => exact pipelineSearch_ok_lock _ _ _

/-- Claim C3 (witness): a concrete full run (free-text query, every tier
empty, so the no-match reply is sent) ends `ok` with the lock removed. -/
theorem c3_witness :
    ((initSt none).lockPresent = false ∧ "my song" ≠ "" ∧
      (runHandle demoOracle "my song" (initSt none)).2 = Outcome.ok) ∧
    ((runHandle demoOracle "my song" (initSt none)).1).lockPresent = false :=
  ⟨⟨by decide, by decide, by decide⟩,
    c3_lock_released demoOracle "my song" (initSt none) (by decide) (by decide) (by decide)⟩

/-! ## Claim C9 — a locked chat drops the request without any effect -/

/-- Claim C9: when the per-chat lock file is already present, the handler
returns immediately and the run is a no-op: the final state (lock file, sent
messages, token cache, call trace) is exactly the initial one and no message
is sent — `handleSearchMode` returns before any other statement
(`searchMode.js:360-363`). -/
theorem c9_locked_request_dropped (o : Oracle) (text : String) (s0 : St)
    (h : s0.lockPresent = true) :
    runHandle o text s0 = (s0, Outcome.ok) := by
  simp only [runHandle]
  by_cases ht : text = "" <;> simp [ht, h]

/-- Claim C9 (witness): on a concrete locked state the run is the identity. -/
theorem c9_witness :
    lockedDemoSt.lockPresent = true ∧
    runHandle demoOracle "another request" lockedDemoSt = (lockedDemoSt, Outcome.ok) :=
  ⟨by decide, c9_locked_request_dropped demoOracle "another request" lockedDemoSt (by decide)⟩

/-! ## Claim C7 — bare non-DSP URLs are rejected before any resolver runs -/

/-- Claim C7: for every text matching the bare-URL pattern but not the DSP
pattern, the run terminates at the rejection of `searchMode.js:379-387`:
yt-dlp is never ensured, no resolver tier runs, no cover is looked up, no
audio is resolved, and (when the transport delivers the reply) the only
message sent is the rejection and the handler returns normally. -/
theorem c7_bare_url_rejected (o : Oracle) (text : String)
    (cache : Option (String × Int))
    (htext : text ≠ "") (hurl : urlMatch text = true) (hdsp : dspMatch text = false) :
    ((runHandle o text (initSt cache)).1).ytDlpEnsured = false ∧
    ((runHandle o text (initSt cache)).1).deezerCalled = false ∧
    ((runHandle o text (initSt cache)).1).scCalled = false ∧
    ((runHandle o text (initSt cache)).1).ytCalled = false ∧
    ((runHandle o text (initSt cache)).1).archiveCalled = false ∧
    ((runHandle o text (initSt cache)).1).coverSelected = none ∧
    ((runHandle o text (initSt cache)).1).audio = none ∧
    (o.sendFails 0 = false →
      ((runHandle o text (initSt cache)).1).sent = [msgNonMusic] ∧
      (runHandle o text (initSt cache)).2 = Outcome.ok) := by
  by_cases h0 : o.sendFails 0 = true <;>
    simp [runHandle, classify, sendMsg, removeLock, initSt, htext, hurl, hdsp, h0,
      catchHandler_persists]

/-- Claim C7 (witness): a concrete direct-download link is rejected without
any resolver activity. -/
theorem c7_witness :
    ("https://example.com/file.mp3" ≠ "" ∧
      urlMatch "https://example.com/file.mp3" = true ∧
      dspMatch "https://example.com/file.mp3" = false) ∧
    (((runHandle demoOracle "https://example.com/file.mp3" (initSt none)).1).ytDlpEnsured = false ∧
      ((runHandle demoOracle "https://example.com/file.mp3" (initSt none)).1).deezerCalled = false ∧
      ((runHandle demoOracle "https://example.com/file.mp3" (initSt none)).1).scCalled = false ∧
      ((runHandle demoOracle "https://example.com/file.mp3" (initSt none)).1).ytCalled = false ∧
      ((runHandle demoOracle "https://example.com/file.mp3" (initSt none)).1).archiveCalled = false ∧
      ((runHandle demoOracle "https://example.com/file.mp3" (initSt none)).1).coverSelected = none ∧
      ((runHandle demoOracle "https://example.com/file.mp3" (initSt none)).1).audio = none ∧
      (demoOracle.sendFails 0 = false →
        ((runHandle demoOracle "https://example.com/file.mp3" (initSt none)).1).sent = [msgNonMusic] ∧
        (runHandle demoOracle "https://example.com/file.mp3" (initSt none)).2 = Outcome.ok)) :=
  ⟨⟨by decide, by decide, by decide⟩,
    c7_bare_url_rejected demoOracle "https://example.com/file.mp3" none
      (by decide) (by decide) (by decide)⟩

/-! ## Claim C4 — Deezer wins the cascade and is never filtered -/

/-- Claim C4: on the free-text path, whenever the Deezer credential is truthy
and `downloadFromDeezer` yields a result `m`, that `m` is the pipeline's
answer and the SoundCloud, YouTube and Archive resolvers never run.  No
hypothesis about `isStrictMatch` appears: the conclusion holds for every `m`,
including titles that fail the relevance filter (the witness uses one), which
is exactly the claim's "no relevance filtering of Deezer hits". -/
theorem c4_deezer_tier_priority (o : Oracle) (text : String)
    (cache : Option (String × Int)) (m : TrackMeta)
    (htext : text ≠ "")
    (hurl : urlMatch text = false) (hdsp : dspMatch text = false)
    (hyt : ytMatch text = false)
    (hens : o.ensureYtDlpOk = true)
    (harl : optTruthy o.resolver.deezerArl = true)
    (hdz : o.resolver.deezerResult = some m) :
    ((runHandle o text (initSt cache)).1).audio = some m ∧
    ((runHandle o text (initSt cache)).1).scCalled = false ∧
    ((runHandle o text (initSt cache)).1).ytCalled = false ∧
    ((runHandle o text (initSt cache)).1).archiveCalled = false := by
  simp [runHandle, classify, pipelineSearch, resolveAudio, coverAndFinish,
    finishRun_persists, initSt, htext, hurl, hdsp, hyt, hens, harl, hdz]

/-- Claim C4 (witness): with the credential set and Deezer answering a track
whose title does not even match the query, the Deezer hit is still the
answer and the later tiers stay silent. -/
theorem c4_witness :
    (isStrictMatch dzUnrelatedMeta.title "my song" none = false ∧
      optTruthy c4Oracle.resolver.deezerArl = true ∧
      c4Oracle.resolver.deezerResult = some dzUnrelatedMeta) ∧
    (((runHandle c4Oracle "my song" (initSt none)).1).audio = some dzUnrelatedMeta ∧
      ((runHandle c4Oracle "my song" (initSt none)).1).scCalled = false ∧
      ((runHandle c4Oracle "my song" (initSt none)).1).ytCalled = false ∧
      ((runHandle c4Oracle "my song" (initSt none)).1).archiveCalled = false) :=
  ⟨⟨by decide, by decide, by decide⟩,
    c4_deezer_tier_priority c4Oracle "my song" none dzUnrelatedMeta
      (by decide) (by decide) (by decide) (by decide) (by decide) (by decide) (by decide)⟩

/-! ## Claim C5 — the SoundCloud acceptance test -/

/-- Claim C5 (counterexample): a SoundCloud result with an exactly matching
title and reported duration `0` — which is under 45 seconds — is *not*
discarded: `meta.duration && meta.duration < 45` is falsy at `0`
(`searchMode.js:508`), so the pipeline accepts it and never reaches YouTube,
contradicting the claim's "discarded iff … duration is under 45 seconds". -/
theorem c5_zero_duration_counterexample :
    scZeroDurationMeta.duration = some 0 ∧ (0 : Nat) < 45 ∧
    isStrictMatch scZeroDurationMeta.title "mysong" none = true ∧
    ((runHandle c5Oracle "mysong" (initSt none)).1).audio = some scZeroDurationMeta ∧
    ((runHandle c5Oracle "mysong" (initSt none)).1).ytCalled = false := by
  decide

/-- Claim C5 (amended): a SoundCloud tier result is discarded — the pipeline
falls through to YouTube — iff it fails `isStrictMatch` against the
pre-search context or its reported duration is *non-zero* and under 45
seconds; when it is kept it is the pipeline's answer. -/
theorem c5_soundcloud_filter (ro : ResolverOracle) (qc : QueryCtx) (m : TrackMeta)
    (harl : optTruthy ro.deezerArl = false)
    (hsc : ro.scResult = some m) :
    ((resolveAudio ro qc).ytCalled = true ↔
      (isStrictMatch m.title qc.trackNameForCheck qc.artistForCheck = false ∨
        ∃ d, m.duration = some d ∧ d ≠ 0 ∧ d < 45)) ∧
    ((resolveAudio ro qc).ytCalled = false → (resolveAudio ro qc).meta = some m) := by
  by_cases hmatch : isStrictMatch m.title qc.trackNameForCheck qc.artistForCheck = true
  · by_cases hprev : isPreviewDuration m.duration = true
    · cases hyt : ro.ytResult <;>
        simp_all [resolveAudio, scFilter, isPreviewDuration_iff, harl, hsc]
    · have hp : isPreviewDuration m.duration = false := by
        simpa using hprev
      have hne : ¬∃ d, m.duration = some d ∧ d ≠ 0 ∧ d < 45 := by
        rw [← isPreviewDuration_iff]
        simp [hp]
      simp [resolveAudio, scFilter, harl, hsc, hmatch, hp, hne]
  · cases hyt : ro.ytResult <;>
      simp_all [resolveAudio, scFilter, harl, hsc]

/-- Claim C5 (witness): a matching result with duration 30 is discarded as a
preview and the pipeline proceeds to YouTube. -/
theorem c5_witness :
    (resolveAudio
      { deezerArl := none, deezerResult := none,
        scResult := some ⟨"My Song", "https://sc.example/t", some 30, "soundcloud"⟩,
        ytResult := none, archiveDocs := [], archiveMetaFetch := none }
      ⟨"My Song", "My Song", none⟩).ytCalled = true :=
  ((c5_soundcloud_filter
      { deezerArl := none, deezerResult := none,
        scResult := some ⟨"My Song", "https://sc.example/t", some 30, "soundcloud"⟩,
        ytResult := none, archiveDocs := [], archiveMetaFetch := none }
      ⟨"My Song", "My Song", none⟩
      ⟨"My Song", "https://sc.example/t", some 30, "soundcloud"⟩
      (by decide) (by decide)).1).mpr
    (Or.inr ⟨30, rfl, by decide, by decide⟩)

/-! ## Claim C8 — cover selection is independent of audio resolution -/

theorem pipelineDirect_coverSelected (o : Oracle) (qc : QueryCtx) (s : St) :
    ((pipelineDirect o qc s).1).coverSelected =
      if o.ensureYtDlpOk then some (coverResolve qc.query o.coverOracle s.tokenCache).1
      else s.coverSelected := by
  simp only [pipelineDirect, coverAndFinish]
  split_ifs <;> first
    | (simp [finishRun_persists, catchHandler_persists]; done)
    | simp_all

theorem pipelineSearch_coverSelected (o : Oracle) (qc : QueryCtx) (s : St) :
    ((pipelineSearch o qc s).1).coverSelected =
      if o.ensureYtDlpOk then
        match (resolveAudio o.resolver qc).meta with
        | some _ => some (coverResolve qc.query o.coverOracle s.tokenCache).1
        | none => s.coverSelected
      else s.coverSelected := by
  simp only [pipelineSearch, coverAndFinish]
  cases hm : (resolveAudio o.resolver qc).meta <;>
    split_ifs <;> first
      | (simp [finishRun_persists, catchHandler_persists, sendMsg_persists,
          removeLock_persists]; done)
      | simp_all

/-- The cover selection recorded by a run is a function of the classification
result's query, the cover-catalog oracle and the initial token cache alone:
either `none` (the run never reached the cover block) or the `coverResolve`
value at the classified query. -/
theorem runHandle_coverSelected (o : Oracle) (text : String)
    (cache : Option (String × Int)) (htext : text ≠ "") :
    ((runHandle o text (initSt cache)).1).coverSelected =
      match (classify o.sendFails o.dspParse text
          { initSt cache with lockPresent := true }).2 with
      | ClassifyOut.direct qc =>
          if o.ensureYtDlpOk then some (coverResolve qc.query o.coverOracle cache).1
          else none
      | ClassifyOut.search qc =>
          if o.ensureYtDlpOk then
            match (resolveAudio o.resolver qc).meta with
            | some _ => some (coverResolve qc.query o.coverOracle cache).1
            | none => none
          else none
      | _ => none := by
  simp only [runHandle]
  rw [if_neg htext, if_neg (by simp [initSt])]
  have hfr := classify_persists o.sendFails o.dspParse text
    { initSt cache with lockPresent := true }
  rcases hc : classify o.sendFails o.dspParse text
    { initSt cache with lockPresent := true } with ⟨s', c⟩
  rw [hc] at hfr
  obtain ⟨htc, -, -, -, -, -, hcs, -⟩ := hfr
  have htc' : s'.tokenCache = cache := htc
  have hcs' : s'.coverSelected = none := hcs
  cases c with
  | exited => exact hcs'
  | threw =>
    have := (catchHandler_persists o.sendFails s').2.2.2.2.2.2.1
    rw [this, hcs']
  | direct qc =>
    show ((pipelineDirect o qc s').1).coverSelected = _
    rw [pipelineDirect_coverSelected, htc', hcs']
  | search qc =>
    show ((pipelineSearch o qc s').1).coverSelected = _
    rw [pipelineSearch_coverSelected, htc', hcs']

/-- Claim C8: two runs on the same message text, the same initial token cache,
the same transport behaviour, the same DSP link parse and the same cover
catalogs — but arbitrarily different audio resolution outcomes (tier
configuration and every tier's result, the yt-dlp presence, the direct-URL
metadata) — select the same cover whenever both runs select one.  The audio
result's title and URL never reach the cover lookup. -/
theorem c8_cover_noninterference (text : String) (cache : Option (String × Int))
    (o1 o2 : Oracle) (c1 c2 : String)
    (htext : text ≠ "")
    (hsf : o1.sendFails = o2.sendFails)
    (hdp : o1.dspParse = o2.dspParse)
    (hco : o1.coverOracle = o2.coverOracle)
    (h1 : ((runHandle o1 text (initSt cache)).1).coverSelected = some c1)
    (h2 : ((runHandle o2 text (initSt cache)).1).coverSelected = some c2) :
    c1 = c2 := by
  rw [runHandle_coverSelected o1 text cache htext] at h1
  rw [runHandle_coverSelected o2 text cache htext] at h2
  rw [hsf, hdp, hco] at h1
  rcases hc : (classify o2.sendFails o2.dspParse text
      { initSt cache with lockPresent := true }).2 with _ | _ | qc | qc <;>
    rw [hc] at h1 h2
  · exact absurd h1 (by simp)
  · exact absurd h1 (by simp)
  · replace h1 : (if o1.ensureYtDlpOk = true then
        some (coverResolve qc.query o2.coverOracle cache).1 else none) = some c1 := h1
    replace h2 : (if o2.ensureYtDlpOk = true then
        some (coverResolve qc.query o2.coverOracle cache).1 else none) = some c2 := h2
    by_cases he1 : o1.ensureYtDlpOk = true
    · by_cases he2 : o2.ensureYtDlpOk = true
      · rw [if_pos he1, Option.some_inj] at h1
        rw [if_pos he2, Option.some_inj] at h2
        rw [← h1, ← h2]
      · rw [if_neg he2] at h2
        exact absurd h2 (by simp)
    · rw [if_neg he1] at h1
      exact absurd h1 (by simp)
  · replace h1 : (if o1.ensureYtDlpOk = true then
        match (resolveAudio o1.resolver qc).meta with
        | some _ => some (coverResolve qc.query o2.coverOracle cache).1
        | none => none
      else none) = some c1 := h1
    replace h2 : (if o2.ensureYtDlpOk = true then
        match (resolveAudio o2.resolver qc).meta with
        | some _ => some (coverResolve qc.query o2.coverOracle cache).1
        | none => none
      else none) = some c2 := h2
    by_cases he1 : o1.ensureYtDlpOk = true
    · by_cases he2 : o2.ensureYtDlpOk = true
      · rw [if_pos he1] at h1
        rw [if_pos he2] at h2
        rcases hm1 : (resolveAudio o1.resolver qc).meta with _ | m1 <;> rw [hm1] at h1
        · exact absurd h1 (by simp)
        · rcases hm2 : (resolveAudio o2.resolver qc).meta with _ | m2 <;> rw [hm2] at h2
          · exact absurd h2 (by simp)
          · rw [Option.some_inj] at h1 h2
            rw [← h1, ← h2]
      · rw [if_neg he2] at h2
        exact absurd h2 (by simp)
    · rw [if_neg he1] at h1
      exact absurd h1 (by simp)

/-- Claim C8 (witness): two concrete runs on the same query, one resolved by
SoundCloud and one by YouTube, both select the Deezer catalog cover. -/
theorem c8_witness :
    (c8oracle1.sendFails = c8oracle2.sendFails ∧
      c8oracle1.dspParse = c8oracle2.dspParse ∧
      c8oracle1.coverOracle = c8oracle2.coverOracle ∧
      ((runHandle c8oracle1 "my song" (initSt none)).1).audio ≠
        ((runHandle c8oracle2 "my song" (initSt none)).1).audio ∧
      ((runHandle c8oracle1 "my song" (initSt none)).1).coverSelected
        = some "https://cover.example/a.jpg" ∧
      ((runHandle c8oracle2 "my song" (initSt none)).1).coverSelected
        = some "https://cover.example/a.jpg") ∧
    "https://cover.example/a.jpg" = "https://cover.example/a.jpg" :=
  ⟨⟨rfl, rfl, rfl, by decide, by decide, by decide⟩,
    c8_cover_noninterference "my song" none c8oracle1 c8oracle2
      "https://cover.example/a.jpg" "https://cover.example/a.jpg"
      (by decide) rfl rfl rfl (by decide) (by decide)⟩

/-! ## Claim C1 — bare YouTube URLs and the direct-URL path -/

/-- Claim C1 (code evaluated at the failing input): a bare YouTube short-link
is matched by the generic-URL guard of `searchMode.js:379` — which carves out
only the DSP domains, not `youtube.com`/`youtu.be` — so the run sends the
non-music rejection and returns: yt-dlp is never ensured, no metadata is
fetched, no audio is chosen.  The dedicated "Processing YouTube Link..."
direct-URL branch at `searchMode.js:463-465` is unreachable for every bare
URL, contradicting the claim (and `spec.md` §4.2 step 2/4). -/
theorem c1_bare_youtube_url_rejected :
    urlMatch "https://youtu.be/dQw4w9WgXcQ" = true ∧
    ytMatch "https://youtu.be/dQw4w9WgXcQ" = true ∧
    dspMatch "https://youtu.be/dQw4w9WgXcQ" = false ∧
    ((runHandle demoOracle "https://youtu.be/dQw4w9WgXcQ" (initSt none)).1).sent
      = [msgNonMusic] ∧
    ((runHandle demoOracle "https://youtu.be/dQw4w9WgXcQ" (initSt none)).1).ytDlpEnsured
      = false ∧
    ((runHandle demoOracle "https://youtu.be/dQw4w9WgXcQ" (initSt none)).1).audio = none ∧
    ((runHandle demoOracle "https://youtu.be/dQw4w9WgXcQ" (initSt none)).1).coverSelected
      = none ∧
    (runHandle demoOracle "https://youtu.be/dQw4w9WgXcQ" (initSt none)).2 = Outcome.ok := by
  decide

/-- Claim C10 (witness): `"!!!"` is non-empty, consists only of characters
stripped by cleaning, and contains neither exceptional code point, so any
non-empty title matches it. -/
theorem c10_witness :
    ("abc" ≠ "" ∧ "!!!" ≠ "" ∧
      (∀ c ∈ "!!!".data, isWordChar c = false ∧ isSpaceChar c = false ∧
        c ≠ '\u212A' ∧ c ≠ '\u0130')) ∧
    isStrictMatch "abc" "!!!" none = true :=
  ⟨⟨by decide, by decide, by decide⟩,
    c10_unmatchable_target_accepted "abc" "!!!" (by decide) (by decide) (by decide)⟩

end SearchMode
